import Mathlib

/-
Verification of the JSON-RPC client core of the terraform-provider-zabbix
repository (internal/zabbix: client, types, host, template, template_group).

The embedding models:
  * JSON values as an inductive type (the shapes produced by json.Marshal of
    the parameter maps and consumed by json.Unmarshal of results);
  * strconv.Atoi as a parser over the characters of a string;
  * the Client Request logic of client.go (src/unnamed/part_002) as a pure
    function of the client state, the call arguments and the outcome of the
    single HTTP exchange;
  * the per-entity wire/domain structs, their custom UnmarshalJSON and
    MarshalJSON logic, and the parameter-map construction and result handling
    of every CRUD method of host.go, template.go and template_group.go.

Go slices that the source distinguishes by nil-ness are modelled as
Option (List _) with none for a nil slice; Go machine integers are modelled
as unbounded Int (no arithmetic in the modelled code can overflow for the
inputs the claims quantify over, and strconv.Atoi range errors are outside
the modelled value range).
-/

namespace Zabbix

/-- JSON values, as produced by json.Marshal of the parameter objects the
client builds and as consumed when decoding result payloads. -/
inductive JSON where
  | str (s : String)
  | int (n : Int)
  | bool (b : Bool)
  | arr (elems : List JSON)
  | obj (fields : List (String × JSON))
  | null

/-- Character of a single decimal digit, the byte the Go runtime prints for
a digit d, namely the code of the zero digit plus d. -/
def digitChar (d : Nat) : Char :=
  Char.ofNat (48 + d)

/-- Numeric value of a decimal digit character, none for any other
character, mirroring the per-character range check of strconv.ParseInt in
base 10. -/
def charDigit (c : Char) : Option Nat :=
  if 48 ≤ c.toNat ∧ c.toNat ≤ 57 then some (c.toNat - 48) else none

/-- Left-to-right accumulation over digit characters, the digit loop of
strconv.ParseUint. -/
def parseDigitsAux : List Char → Nat → Option Nat
  | [], acc => some acc
  | c :: cs, acc =>
    match charDigit c with
    | some d => parseDigitsAux cs (acc * 10 + d)
    | none => none

/-- Parse of a non-empty all-digit character list; an empty digit part is a
syntax error in strconv.ParseUint. -/
def parseDigits (l : List Char) : Option Nat :=
  if l = [] then none else parseDigitsAux l 0

/-- Model of strconv.Atoi on the characters of the input: an optional single
leading sign followed by a non-empty run of decimal digits, with the 64-bit
signed range check of ParseInt (cutoff 2 to the 63rd: a non-negative value
must stay below it, a negated magnitude must not exceed it); a value outside
that range is the ErrRange failure of the source, modelled as none like any
other parse failure, because the callers only test err against nil. -/
def atoiChars : List Char → Option Int
  | [] => none
  | c :: cs =>
    if c = '+' then
      (parseDigits cs).bind
        (fun d : Nat => if d < 2 ^ 63 then some (d : Int) else none)
    else if c = '-' then
      (parseDigits cs).bind
        (fun d : Nat => if d ≤ 2 ^ 63 then some (-(d : Int)) else none)
    else
      (parseDigits (c :: cs)).bind
        (fun d : Nat => if d < 2 ^ 63 then some (d : Int) else none)

/-- Model of strconv.Atoi on a Go string: ParseInt in base 10 at the bit
size of the 64-bit int type. -/
def atoi (s : String) : Option Int :=
  atoiChars s.data

/-- Decimal digit characters of a natural number, most significant first,
as printed by the Go runtime for an integer. -/
def natDigits (n : Nat) : List Char :=
  if _h : n < 10 then [digitChar n]
  else natDigits (n / 10) ++ [digitChar (n % 10)]
  decreasing_by exact Nat.div_lt_self (by omega) (by omega)

/-- Decimal character representation of an integer, a minus sign followed by
the digits for negative values. -/
def intToChars (n : Int) : List Char :=
  if n < 0 then '-' :: natDigits (-n).toNat else natDigits n.toNat

/-- Decimal string of an integer, the string-ized echo a Zabbix server sends
back for a numeric field it received as a JSON integer. -/
def intToString (n : Int) : String :=
  ⟨intToChars n⟩

/-- Error of types.go: a Zabbix API error response with code, message and
optional data. -/
structure ErrorObj where
  code : Int
  message : String
  data : String

/-- Request of types.go: the JSON-RPC 2.0 request envelope. Auth is a Go
string whose zero value is omitted from the wire by the omitempty tag. -/
structure RequestEnv where
  jsonrpc : String
  method : String
  params : JSON
  id : Int
  auth : String

/-- Response of types.go: the JSON-RPC 2.0 response envelope; result is the
raw payload when present, error the structured API error. -/
structure ResponseEnv where
  jsonrpc : String
  result : Option JSON
  error : Option ErrorObj
  id : Int

/-- Classified failures of the Request call, mirroring the error paths of
client.go: transport send failure, HTTPError of types.go carrying status
code and status line, envelope decode failure, APIError of types.go carrying
the method name. -/
inductive ReqError where
  | sendError (msg : String)
  | httpError (statusCode : Nat) (status : String)
  | decodeError
  | apiError (method : String) (err : ErrorObj)

/-- Outcome of the single HTTP exchange a Request call performs: either the
transport fails, or a status code and status line arrive together with a
body; the body is modelled by the outcome of decoding its bytes as a
Response envelope, none standing for bytes that do not decode. -/
inductive HTTPOutcome where
  | netError (msg : String)
  | response (statusCode : Nat) (status : String) (body : Option ResponseEnv)

/-- Client of client.go: endpoint URL, auth token and the atomic request-id
counter. -/
structure Client where
  url : String
  token : String
  requestID : Int

/-- NewClient of client.go: a fresh client; the atomic counter starts at its
zero value. -/
def newClient (url token : String) : Client :=
  { url := url, token := token, requestID := 0 }

/-- Methods that do not require authentication (noAuthMethods, client.go). -/
def noAuthMethods (method : String) : Bool :=
  method == "apiinfo.version"

/-- Request of client.go (lines 56 to 110) as a function of the client
state, the call arguments and the HTTP exchange outcome. Returns the
advanced client state, the outgoing envelope, and the call result. Nil
params are normalized to an empty object; the id is the atomically
incremented counter; auth is injected unless the method is on the no-auth
allow-list; a transport failure is a send error; a status other than 200 OK
yields an HTTPError from the status code and line without looking at the
body; a body that does not decode yields a decode error; an envelope
carrying an error object yields an APIError tagged with the method;
otherwise the raw result payload is returned. -/
def Client.request (c : Client) (method : String) (params : Option JSON)
    (out : HTTPOutcome) :
    Client × RequestEnv × Except ReqError (Option JSON) :=
  let p := params.getD (.obj [])
  let id := c.requestID + 1
  let c' := { c with requestID := id }
  let req : RequestEnv :=
    { jsonrpc := "2.0", method := method, params := p, id := id,
      auth := if noAuthMethods method then "" else c.token }
  let res : Except ReqError (Option JSON) :=
    match out with
    | .netError msg => .error (.sendError msg)
    | .response statusCode status body =>
      if statusCode ≠ 200 then .error (.httpError statusCode status)
      else
        match body with
        | none => .error .decodeError
        | some resp =>
          match resp.error with
          | some e => .error (.apiError method e)
          | none => .ok resp.result
  (c', req, res)

/-- Identifiers placed in the outgoing envelopes of a number of sequential
Request calls starting from a given client state. The method, params and
per-call server outcome do not influence the counter, so they are held
fixed. Because the counter increment in the source is a single atomic
operation, any interleaving of concurrent calls is a serialization of these
increments, so this sequence also describes the ids handed out across
concurrent calls in their serialization order. -/
def requestIDs (c : Client) (method : String) (params : Option JSON)
    (out : HTTPOutcome) : Nat → List Int
  | 0 => []
  | n + 1 =>
    let r := c.request method params out
    r.2.1.id :: requestIDs r.1 method params out n

/-- HostGroupID of host.go: a host group reference. -/
structure HostGroupID where
  groupid : String
  name : String

/-- HostTag of host.go. -/
structure HostTag where
  tag : String
  value : String

/-- TemplateID of host.go: a template reference. -/
structure TemplateID where
  templateid : String

/-- ParentTemplate of host.go: a linked template returned from host.get. -/
structure ParentTemplate where
  templateid : String
  name : String

/-- HostInterface of host.go: the domain shape with native integer numeric
fields. -/
structure HostInterface where
  interfaceid : String
  type : Int
  main : Int
  useip : Int
  ip : String
  dns : String
  port : String

/-- Host of host.go: the domain shape with a native integer status. Slices
that the source distinguishes by nil-ness are Option lists, none for nil. -/
structure Host where
  hostid : String
  host : String
  name : String
  status : Int
  groups : Option (List HostGroupID)
  interfaces : Option (List HostInterface)
  tags : Option (List HostTag)
  templates : Option (List TemplateID)
  parentTemplates : Option (List ParentTemplate)

/-- hostInterfaceJSON of host.go: the private wire shape with string numeric
fields used for decoding. -/
structure HostInterfaceWire where
  interfaceid : String
  type : String
  main : String
  useip : String
  ip : String
  dns : String
  port : String

/-- hostJSON of host.go: the private wire shape of Host with string status. -/
structure HostWire where
  hostid : String
  host : String
  name : String
  status : String
  groups : Option (List HostGroupID)
  interfaces : Option (List HostInterface)
  tags : Option (List HostTag)
  templates : Option (List TemplateID)
  parentTemplates : Option (List ParentTemplate)

/-- HostGroup of hostgroup.go. -/
structure HostGroup where
  groupid : String
  name : String
  uuid : String

/-- TemplateGroup of template_group.go. -/
structure TemplateGroup where
  groupid : String
  name : String
  uuid : String

/-- TemplateGroupID of template.go: a template group reference. -/
structure TemplateGroupID where
  groupid : String
  name : String

/-- TemplateTag of template.go. -/
structure TemplateTag where
  tag : String
  value : String

/-- Template of template.go. -/
structure Template where
  templateid : String
  host : String
  name : String
  description : String
  uuid : String
  groups : Option (List TemplateGroupID)
  tags : Option (List TemplateTag)

/-- Behaviour of one numeric wire field inside the UnmarshalJSON methods of
host.go: an empty wire string leaves the zero value, a non-empty one must
parse with strconv.Atoi; none marks the parse failure case. -/
def wireNum (s : String) : Option Int :=
  if s = "" then some 0 else atoi s

/-- Tail of HostInterface.UnmarshalJSON (host.go lines 101 to 130): copy the
string fields and resolve the three numeric wire fields in source order,
failing with the descriptive source message on the first unparsable
non-empty value. -/
def hostInterfaceFromWire (w : HostInterfaceWire) :
    Except String HostInterface :=
  match wireNum w.type with
  | none => .error ("invalid interface type value: " ++ w.type)
  | some t =>
    match wireNum w.main with
    | none => .error ("invalid interface main value: " ++ w.main)
    | some m =>
      match wireNum w.useip with
      | none => .error ("invalid interface useip value: " ++ w.useip)
      | some u =>
        .ok { interfaceid := w.interfaceid, type := t, main := m, useip := u,
              ip := w.ip, dns := w.dns, port := w.port }

/-- Tail of Host.UnmarshalJSON (host.go lines 46 to 63): copy the fields and
resolve the status wire field. -/
def hostFromWire (w : HostWire) : Except String Host :=
  match wireNum w.status with
  | none => .error ("invalid status value: " ++ w.status)
  | some s =>
    .ok { hostid := w.hostid, host := w.host, name := w.name, status := s,
          groups := w.groups, interfaces := w.interfaces, tags := w.tags,
          templates := w.templates, parentTemplates := w.parentTemplates }

/-- Behaviour of encoding/json for a Go string field: a JSON string sets the
field, null leaves it unchanged, any other value is a type error. -/
def setStr (cur : String) (v : JSON) : Except String String :=
  match v with
  | .str s => .ok s
  | .null => .ok cur
  | _ => .error "cannot unmarshal value into string field"

/-- Element-wise decoding of a JSON list, stopping at the first failure, as
encoding/json does for a Go slice. -/
def decodeListWith (dec : JSON → Except String E) :
    List JSON → Except String (List E)
  | [] => .ok []
  | j :: js =>
    match dec j with
    | .error e => .error e
    | .ok x =>
      match decodeListWith dec js with
      | .error e => .error e
      | .ok xs => .ok (x :: xs)

/-- Behaviour of encoding/json for a Go slice field: an array decodes
element-wise, null sets the slice to nil, anything else is a type error. -/
def setListOpt (dec : JSON → Except String E) (v : JSON) :
    Except String (Option (List E)) :=
  match v with
  | .arr l => (decodeListWith dec l).map some
  | .null => .ok none
  | _ => .error "cannot unmarshal value into slice field"

/-- Field loop of encoding/json over the members of a JSON object: each
member updates the struct under construction through the per-struct field
setter, unknown keys being ignored by the setter; a later duplicate key
overwrites an earlier one, as in the source package. -/
def foldFields (setF : A → String → JSON → Except String A) :
    A → List (String × JSON) → Except String A
  | a, [] => .ok a
  | a, (k, v) :: fs =>
    match setF a k v with
    | .error e => .error e
    | .ok a2 => foldFields setF a2 fs

/-- Behaviour of encoding/json for a Go struct: the value must be an object
whose members are folded into the zero struct; null leaves the zero struct. -/
def decodeObj (setF : A → String → JSON → Except String A) (zero : A)
    (j : JSON) : Except String A :=
  match j with
  | .obj fields => foldFields setF zero fields
  | .null => .ok zero
  | _ => .error "cannot unmarshal value into struct"

/-- Field setter of HostGroupID for encoding/json decoding. -/
def hostGroupIDSetField (g : HostGroupID) (k : String) (v : JSON) :
    Except String HostGroupID :=
  if k = "groupid" then (setStr g.groupid v).map (fun s => { g with groupid := s })
  else if k = "name" then (setStr g.name v).map (fun s => { g with name := s })
  else .ok g

/-- Decoding of a HostGroupID wire object. -/
def decodeHostGroupID : JSON → Except String HostGroupID :=
  decodeObj hostGroupIDSetField { groupid := "", name := "" }

/-- Field setter of HostTag for encoding/json decoding. -/
def hostTagSetField (t : HostTag) (k : String) (v : JSON) :
    Except String HostTag :=
  if k = "tag" then (setStr t.tag v).map (fun s => { t with tag := s })
  else if k = "value" then (setStr t.value v).map (fun s => { t with value := s })
  else .ok t

/-- Decoding of a HostTag wire object. -/
def decodeHostTag : JSON → Except String HostTag :=
  decodeObj hostTagSetField { tag := "", value := "" }

/-- Field setter of TemplateID for encoding/json decoding. -/
def templateIDSetField (t : TemplateID) (k : String) (v : JSON) :
    Except String TemplateID :=
  if k = "templateid" then
    (setStr t.templateid v).map (fun s => { t with templateid := s })
  else .ok t

/-- Decoding of a TemplateID wire object. -/
def decodeTemplateID : JSON → Except String TemplateID :=
  decodeObj templateIDSetField { templateid := "" }

/-- Field setter of ParentTemplate for encoding/json decoding. -/
def parentTemplateSetField (t : ParentTemplate) (k : String) (v : JSON) :
    Except String ParentTemplate :=
  if k = "templateid" then
    (setStr t.templateid v).map (fun s => { t with templateid := s })
  else if k = "name" then (setStr t.name v).map (fun s => { t with name := s })
  else .ok t

/-- Decoding of a ParentTemplate wire object. -/
def decodeParentTemplate : JSON → Except String ParentTemplate :=
  decodeObj parentTemplateSetField { templateid := "", name := "" }

/-- Field setter of the hostInterfaceJSON wire struct. -/
def hostInterfaceWireSetField (w : HostInterfaceWire) (k : String) (v : JSON) :
    Except String HostInterfaceWire :=
  if k = "interfaceid" then
    (setStr w.interfaceid v).map (fun s => { w with interfaceid := s })
  else if k = "type" then (setStr w.type v).map (fun s => { w with type := s })
  else if k = "main" then (setStr w.main v).map (fun s => { w with main := s })
  else if k = "useip" then (setStr w.useip v).map (fun s => { w with useip := s })
  else if k = "ip" then (setStr w.ip v).map (fun s => { w with ip := s })
  else if k = "dns" then (setStr w.dns v).map (fun s => { w with dns := s })
  else if k = "port" then (setStr w.port v).map (fun s => { w with port := s })
  else .ok w

/-- Zero value of the hostInterfaceJSON wire struct. -/
def hostInterfaceWireZero : HostInterfaceWire :=
  { interfaceid := "", type := "", main := "", useip := "",
    ip := "", dns := "", port := "" }

/-- Phase one of HostInterface.UnmarshalJSON: json.Unmarshal of the data
into the hostInterfaceJSON wire struct. -/
def decodeHostInterfaceWire : JSON → Except String HostInterfaceWire :=
  decodeObj hostInterfaceWireSetField hostInterfaceWireZero

/-- HostInterface.UnmarshalJSON of host.go (lines 95 to 131): decode the
wire struct, then resolve the numeric fields. -/
def decodeHostInterface (j : JSON) : Except String HostInterface :=
  match decodeHostInterfaceWire j with
  | .error e => .error e
  | .ok w => hostInterfaceFromWire w

/-- Field setter of the hostJSON wire struct; the nested slices decode
through the element decoders, interfaces through the custom
HostInterface.UnmarshalJSON. -/
def hostWireSetField (w : HostWire) (k : String) (v : JSON) :
    Except String HostWire :=
  if k = "hostid" then (setStr w.hostid v).map (fun s => { w with hostid := s })
  else if k = "host" then (setStr w.host v).map (fun s => { w with host := s })
  else if k = "name" then (setStr w.name v).map (fun s => { w with name := s })
  else if k = "status" then (setStr w.status v).map (fun s => { w with status := s })
  else if k = "groups" then
    (setListOpt decodeHostGroupID v).map (fun x => { w with groups := x })
  else if k = "interfaces" then
    (setListOpt decodeHostInterface v).map (fun x => { w with interfaces := x })
  else if k = "tags" then
    (setListOpt decodeHostTag v).map (fun x => { w with tags := x })
  else if k = "templates" then
    (setListOpt decodeTemplateID v).map (fun x => { w with templates := x })
  else if k = "parentTemplates" then
    (setListOpt decodeParentTemplate v).map (fun x => { w with parentTemplates := x })
  else .ok w

/-- Zero value of the hostJSON wire struct. -/
def hostWireZero : HostWire :=
  { hostid := "", host := "", name := "", status := "", groups := none,
    interfaces := none, tags := none, templates := none,
    parentTemplates := none }

/-- Phase one of Host.UnmarshalJSON: json.Unmarshal of the data into the
hostJSON wire struct. -/
def decodeHostWire : JSON → Except String HostWire :=
  decodeObj hostWireSetField hostWireZero

/-- Host.UnmarshalJSON of host.go (lines 40 to 64): decode the wire struct,
then resolve the status field. -/
def decodeHost (j : JSON) : Except String Host :=
  match decodeHostWire j with
  | .error e => .error e
  | .ok w => hostFromWire w

/-- Field setter of HostGroup for encoding/json decoding. -/
def hostGroupSetField (g : HostGroup) (k : String) (v : JSON) :
    Except String HostGroup :=
  if k = "groupid" then (setStr g.groupid v).map (fun s => { g with groupid := s })
  else if k = "name" then (setStr g.name v).map (fun s => { g with name := s })
  else if k = "uuid" then (setStr g.uuid v).map (fun s => { g with uuid := s })
  else .ok g

/-- Decoding of a HostGroup wire object. -/
def decodeHostGroup : JSON → Except String HostGroup :=
  decodeObj hostGroupSetField { groupid := "", name := "", uuid := "" }

/-- Field setter of TemplateGroup for encoding/json decoding. -/
def templateGroupSetField (g : TemplateGroup) (k : String) (v : JSON) :
    Except String TemplateGroup :=
  if k = "groupid" then (setStr g.groupid v).map (fun s => { g with groupid := s })
  else if k = "name" then (setStr g.name v).map (fun s => { g with name := s })
  else if k = "uuid" then (setStr g.uuid v).map (fun s => { g with uuid := s })
  else .ok g

/-- Decoding of a TemplateGroup wire object. -/
def decodeTemplateGroup : JSON → Except String TemplateGroup :=
  decodeObj templateGroupSetField { groupid := "", name := "", uuid := "" }

/-- Field setter of TemplateGroupID for encoding/json decoding. -/
def templateGroupIDSetField (g : TemplateGroupID) (k : String) (v : JSON) :
    Except String TemplateGroupID :=
  if k = "groupid" then (setStr g.groupid v).map (fun s => { g with groupid := s })
  else if k = "name" then (setStr g.name v).map (fun s => { g with name := s })
  else .ok g

/-- Decoding of a TemplateGroupID wire object. -/
def decodeTemplateGroupID : JSON → Except String TemplateGroupID :=
  decodeObj templateGroupIDSetField { groupid := "", name := "" }

/-- Field setter of TemplateTag for encoding/json decoding. -/
def templateTagSetField (t : TemplateTag) (k : String) (v : JSON) :
    Except String TemplateTag :=
  if k = "tag" then (setStr t.tag v).map (fun s => { t with tag := s })
  else if k = "value" then (setStr t.value v).map (fun s => { t with value := s })
  else .ok t

/-- Decoding of a TemplateTag wire object. -/
def decodeTemplateTag : JSON → Except String TemplateTag :=
  decodeObj templateTagSetField { tag := "", value := "" }

/-- Field setter of Template for encoding/json decoding. -/
def templateSetField (t : Template) (k : String) (v : JSON) :
    Except String Template :=
  if k = "templateid" then
    (setStr t.templateid v).map (fun s => { t with templateid := s })
  else if k = "host" then (setStr t.host v).map (fun s => { t with host := s })
  else if k = "name" then (setStr t.name v).map (fun s => { t with name := s })
  else if k = "description" then
    (setStr t.description v).map (fun s => { t with description := s })
  else if k = "uuid" then (setStr t.uuid v).map (fun s => { t with uuid := s })
  else if k = "groups" then
    (setListOpt decodeTemplateGroupID v).map (fun x => { t with groups := x })
  else if k = "tags" then
    (setListOpt decodeTemplateTag v).map (fun x => { t with tags := x })
  else .ok t

/-- Zero value of Template. -/
def templateZero : Template :=
  { templateid := "", host := "", name := "", description := "", uuid := "",
    groups := none, tags := none }

/-- Decoding of a Template wire object. -/
def decodeTemplate : JSON → Except String Template :=
  decodeObj templateSetField templateZero

/-- MarshalJSON of HostInterface (host.go lines 134 to 147): an explicit
keyed map whose numeric fields are true integer literals; the interfaceid is
added only when non-empty. -/
def hostInterfaceMarshal (hi : HostInterface) : JSON :=
  .obj ([("type", .int hi.type), ("main", .int hi.main),
         ("useip", .int hi.useip), ("ip", .str hi.ip),
         ("dns", .str hi.dns), ("port", .str hi.port)] ++
        (if hi.interfaceid ≠ "" then [("interfaceid", .str hi.interfaceid)]
         else []))

/-- Modelled from the spec round-trip scenario: the string-ized echo of the
server, which returns every numeric member of an object it received as its
decimal string. -/
def stringizeVal : JSON → JSON
  | .int n => .str (intToString n)
  | j => j

/-- Modelled from the spec round-trip scenario: string-izing echo applied to
the members of a wire object. -/
def stringizeTop : JSON → JSON
  | .obj fs => .obj (fs.map (fun kv => (kv.1, stringizeVal kv.2)))
  | j => j

/-- Length of a Go slice modelled as an Option list: len of nil is 0. -/
def optLen (o : Option (List A)) : Nat :=
  (o.getD []).length

/-- Group references as built by CreateHost and UpdateHost. -/
def hostGroupsJSON (gs : List HostGroupID) : JSON :=
  .arr (gs.map (fun g => .obj [("groupid", .str g.groupid)]))

/-- Interface maps as built by CreateHost (no interfaceid). -/
def createInterfacesJSON (l : List HostInterface) : JSON :=
  .arr (l.map (fun i =>
    .obj [("type", .int i.type), ("main", .int i.main),
          ("useip", .int i.useip), ("ip", .str i.ip),
          ("dns", .str i.dns), ("port", .str i.port)]))

/-- Interface maps as built by UpdateHost: the interfaceid is added to the
map only when non-empty. -/
def updateInterfacesJSON (l : List HostInterface) : JSON :=
  .arr (l.map (fun i =>
    .obj ([("type", .int i.type), ("main", .int i.main),
           ("useip", .int i.useip), ("ip", .str i.ip),
           ("dns", .str i.dns), ("port", .str i.port)] ++
          (if i.interfaceid ≠ "" then [("interfaceid", .str i.interfaceid)]
           else []))))

/-- Template references as built by CreateHost and UpdateHost. -/
def hostTemplatesJSON (ts : List TemplateID) : JSON :=
  .arr (ts.map (fun t => .obj [("templateid", .str t.templateid)]))

/-- Tag maps as built by CreateHost and UpdateHost. -/
def hostTagsJSON (ts : List HostTag) : JSON :=
  .arr (ts.map (fun t => .obj [("tag", .str t.tag), ("value", .str t.value)]))

/-- Keyed parameter object built by CreateHost (host.go lines 194 to 240),
keys in source order: host and status unconditionally, name when non-empty,
each slice-backed parameter only when the slice has positive length. -/
def createHostParams (h : Host) : List (String × JSON) :=
  [("host", .str h.host), ("status", .int h.status)]
  ++ (if h.name ≠ "" then [("name", .str h.name)] else [])
  ++ (if 0 < optLen h.groups then
        [("groups", hostGroupsJSON (h.groups.getD []))] else [])
  ++ (if 0 < optLen h.interfaces then
        [("interfaces", createInterfacesJSON (h.interfaces.getD []))] else [])
  ++ (if 0 < optLen h.templates then
        [("templates", hostTemplatesJSON (h.templates.getD []))] else [])
  ++ (if 0 < optLen h.tags then
        [("tags", hostTagsJSON (h.tags.getD []))] else [])

/-- Keyed parameter object built by UpdateHost (host.go lines 319 to 375),
keys in source order: hostid unconditionally, host and name when non-empty,
status always (zero is a valid value), groups, interfaces and templates only
when the slice has positive length, tags whenever the Tags slice is not nil. -/
def updateHostParams (h : Host) : List (String × JSON) :=
  [("hostid", .str h.hostid)]
  ++ (if h.host ≠ "" then [("host", .str h.host)] else [])
  ++ (if h.name ≠ "" then [("name", .str h.name)] else [])
  ++ [("status", .int h.status)]
  ++ (if 0 < optLen h.groups then
        [("groups", hostGroupsJSON (h.groups.getD []))] else [])
  ++ (if 0 < optLen h.interfaces then
        [("interfaces", updateInterfacesJSON (h.interfaces.getD []))] else [])
  ++ (if 0 < optLen h.templates then
        [("templates", hostTemplatesJSON (h.templates.getD []))] else [])
  ++ (match h.tags with
      | some tl => [("tags", hostTagsJSON tl)]
      | none => [])

/-- Group references as built by CreateTemplate and UpdateTemplate. -/
def templateGroupsJSON (gs : List TemplateGroupID) : JSON :=
  .arr (gs.map (fun g => .obj [("groupid", .str g.groupid)]))

/-- Tag maps as built by CreateTemplate and UpdateTemplate. -/
def templateTagsJSON (ts : List TemplateTag) : JSON :=
  .arr (ts.map (fun t => .obj [("tag", .str t.tag), ("value", .str t.value)]))

/-- Keyed parameter object built by CreateTemplate (template.go lines 61 to
87): host unconditionally, name and description when non-empty, groups and
tags only when the slice has positive length. -/
def createTemplateParams (t : Template) : List (String × JSON) :=
  [("host", .str t.host)]
  ++ (if t.name ≠ "" then [("name", .str t.name)] else [])
  ++ (if t.description ≠ "" then [("description", .str t.description)] else [])
  ++ (if 0 < optLen t.groups then
        [("groups", templateGroupsJSON (t.groups.getD []))] else [])
  ++ (if 0 < optLen t.tags then
        [("tags", templateTagsJSON (t.tags.getD []))] else [])

/-- Keyed parameter object built by UpdateTemplate (template.go lines 162 to
192): templateid unconditionally, host, name and description when non-empty,
groups only when the slice has positive length, tags whenever the Tags slice
is not nil. -/
def updateTemplateParams (t : Template) : List (String × JSON) :=
  [("templateid", .str t.templateid)]
  ++ (if t.host ≠ "" then [("host", .str t.host)] else [])
  ++ (if t.name ≠ "" then [("name", .str t.name)] else [])
  ++ (if t.description ≠ "" then [("description", .str t.description)] else [])
  ++ (if 0 < optLen t.groups then
        [("groups", templateGroupsJSON (t.groups.getD []))] else [])
  ++ (match t.tags with
      | some tl => [("tags", templateTagsJSON tl)]
      | none => [])

/-- Decoding of a JSON value into a Go string slice: element-wise for an
array, nil for null. -/
def decodeStringList : JSON → Except String (List String)
  | .arr l =>
    decodeListWith (fun j =>
      match j with
      | .str s => .ok s
      | _ => .error "cannot unmarshal value into string element") l
  | .null => .ok []
  | _ => .error "cannot unmarshal value into string slice"

/-- Decoding of the one-field id-list response structs of types like
CreateHostResponse: the result must be an object; the keyed member must be a
string array; a missing key leaves the nil slice. -/
def decodeIDList (key : String) (j : JSON) : Except String (List String) :=
  match j with
  | .obj fields =>
    foldFields (fun ids k v => if k = key then decodeStringList v else .ok ids)
      [] fields
  | .null => .ok []
  | _ => .error "cannot unmarshal value into response struct"

/-- Result handling of CreateHost after a successful RPC (host.go lines 247
to 256): decode the hostids list, fail when it is empty, return the first id. -/
def createHostResult (raw : JSON) : Except String String :=
  match decodeIDList "hostids" raw with
  | .error e => .error ("failed to unmarshal host.create response: " ++ e)
  | .ok [] => .error "host.create returned no host IDs"
  | .ok (id :: _) => .ok id

/-- Result handling of UpdateHost after a successful RPC (host.go lines 382
to 391). -/
def updateHostResult (raw : JSON) : Except String Unit :=
  match decodeIDList "hostids" raw with
  | .error e => .error ("failed to unmarshal host.update response: " ++ e)
  | .ok [] => .error "host.update returned no host IDs"
  | .ok (_ :: _) => .ok ()

/-- Result handling of DeleteHost after a successful RPC (host.go lines 403
to 412). -/
def deleteHostResult (raw : JSON) : Except String Unit :=
  match decodeIDList "hostids" raw with
  | .error e => .error ("failed to unmarshal host.delete response: " ++ e)
  | .ok [] => .error "host.delete returned no host IDs"
  | .ok (_ :: _) => .ok ()

/-- Result handling of CreateHostGroup after a successful RPC (hostgroup.go
lines 476 to 485 of the concatenated host sources). -/
def createHostGroupResult (raw : JSON) : Except String String :=
  match decodeIDList "groupids" raw with
  | .error e => .error ("failed to unmarshal hostgroup.create response: " ++ e)
  | .ok [] => .error "hostgroup.create returned no group IDs"
  | .ok (id :: _) => .ok id

/-- Result handling of UpdateHostGroup after a successful RPC. -/
def updateHostGroupResult (raw : JSON) : Except String Unit :=
  match decodeIDList "groupids" raw with
  | .error e => .error ("failed to unmarshal hostgroup.update response: " ++ e)
  | .ok [] => .error "hostgroup.update returned no group IDs"
  | .ok (_ :: _) => .ok ()

/-- Result handling of DeleteHostGroup after a successful RPC. -/
def deleteHostGroupResult (raw : JSON) : Except String Unit :=
  match decodeIDList "groupids" raw with
  | .error e => .error ("failed to unmarshal hostgroup.delete response: " ++ e)
  | .ok [] => .error "hostgroup.delete returned no group IDs"
  | .ok (_ :: _) => .ok ()

/-- Result handling of CreateTemplate after a successful RPC (template.go
lines 94 to 103). -/
def createTemplateResult (raw : JSON) : Except String String :=
  match decodeIDList "templateids" raw with
  | .error e => .error ("failed to unmarshal template.create response: " ++ e)
  | .ok [] => .error "template.create returned no template IDs"
  | .ok (id :: _) => .ok id

/-- Result handling of UpdateTemplate after a successful RPC (template.go
lines 199 to 208). -/
def updateTemplateResult (raw : JSON) : Except String Unit :=
  match decodeIDList "templateids" raw with
  | .error e => .error ("failed to unmarshal template.update response: " ++ e)
  | .ok [] => .error "template.update returned no template IDs"
  | .ok (_ :: _) => .ok ()

/-- Result handling of DeleteTemplate after a successful RPC (template.go
lines 220 to 229). -/
def deleteTemplateResult (raw : JSON) : Except String Unit :=
  match decodeIDList "templateids" raw with
  | .error e => .error ("failed to unmarshal template.delete response: " ++ e)
  | .ok [] => .error "template.delete returned no template IDs"
  | .ok (_ :: _) => .ok ()

/-- Result handling of CreateTemplateGroup after a successful RPC
(template_group.go lines 63 to 72). -/
def createTemplateGroupResult (raw : JSON) : Except String String :=
  match decodeIDList "groupids" raw with
  | .error e =>
    .error ("failed to unmarshal templategroup.create response: " ++ e)
  | .ok [] => .error "templategroup.create returned no group IDs"
  | .ok (id :: _) => .ok id

/-- Result handling of UpdateTemplateGroup after a successful RPC
(template_group.go lines 137 to 146). -/
def updateTemplateGroupResult (raw : JSON) : Except String Unit :=
  match decodeIDList "groupids" raw with
  | .error e =>
    .error ("failed to unmarshal templategroup.update response: " ++ e)
  | .ok [] => .error "templategroup.update returned no group IDs"
  | .ok (_ :: _) => .ok ()

/-- Result handling of DeleteTemplateGroup after a successful RPC
(template_group.go lines 158 to 167). -/
def deleteTemplateGroupResult (raw : JSON) : Except String Unit :=
  match decodeIDList "groupids" raw with
  | .error e =>
    .error ("failed to unmarshal templategroup.delete response: " ++ e)
  | .ok [] => .error "templategroup.delete returned no group IDs"
  | .ok (_ :: _) => .ok ()

/-- Decoding of a JSON value into a Go slice of entities. -/
def decodeEntityList (dec : JSON → Except String E) :
    JSON → Except String (List E)
  | .arr l => decodeListWith dec l
  | .null => .ok []
  | _ => .error "cannot unmarshal value into slice"

/-- Result handling shared by GetHost and GetHostByName (host.go lines 275
to 284 and 305 to 314, textually identical): decode the entity list, nil for
an empty list, otherwise the first element. -/
def getHostResult (raw : JSON) : Except String (Option Host) :=
  match decodeEntityList decodeHost raw with
  | .error e => .error ("failed to unmarshal host.get response: " ++ e)
  | .ok [] => .ok none
  | .ok (h :: _) => .ok (some h)

/-- Result handling shared by GetHostGroup and GetHostGroupByName. -/
def getHostGroupResult (raw : JSON) : Except String (Option HostGroup) :=
  match decodeEntityList decodeHostGroup raw with
  | .error e => .error ("failed to unmarshal hostgroup.get response: " ++ e)
  | .ok [] => .ok none
  | .ok (g :: _) => .ok (some g)

/-- Result handling shared by GetTemplate and GetTemplateByHost (template.go
lines 120 to 129 and 148 to 157, textually identical). -/
def getTemplateResult (raw : JSON) : Except String (Option Template) :=
  match decodeEntityList decodeTemplate raw with
  | .error e => .error ("failed to unmarshal template.get response: " ++ e)
  | .ok [] => .ok none
  | .ok (t :: _) => .ok (some t)

/-- Result handling shared by GetTemplateGroup and GetTemplateGroupByName
(template_group.go lines 87 to 96 and 113 to 122, textually identical). -/
def getTemplateGroupResult (raw : JSON) :
    Except String (Option TemplateGroup) :=
  match decodeEntityList decodeTemplateGroup raw with
  | .error e =>
    .error ("failed to unmarshal templategroup.get response: " ++ e)
  | .ok [] => .ok none
  | .ok (g :: _) => .ok (some g)

/-- Predicate picking out the HTTPError outcome of a call result. -/
def isHTTPError : Except ReqError (Option JSON) → Bool
  | .error (.httpError _ _) => true
  | _ => false

/-- Members of a JSON object value. -/
def objMembers : JSON → List (String × JSON)
  | .obj fs => fs
  | _ => []

theorem charDigit_digitChar {d : Nat} (h : d < 10) :
    charDigit (digitChar d) = some d := by
  interval_cases d <;> rfl

theorem digitChar_ne_plus {d : Nat} (h : d < 10) : digitChar d ≠ '+' := by
  interval_cases d <;> decide

theorem digitChar_ne_minus {d : Nat} (h : d < 10) : digitChar d ≠ '-' := by
  interval_cases d <;> decide

theorem natDigits_ne_nil (n : Nat) : natDigits n ≠ [] := by
  rw [natDigits]
  split
  · simp
  · simp

theorem parseDigitsAux_append (l₁ l₂ : List Char) (acc : Nat) :
    parseDigitsAux (l₁ ++ l₂) acc =
      (parseDigitsAux l₁ acc).bind (parseDigitsAux l₂) := by
  induction l₁ generalizing acc with
  | nil => simp [parseDigitsAux]
  | cons c cs ih =>
    simp only [List.cons_append, parseDigitsAux]
    cases charDigit c with
    | some d => simp [ih]
    | none => simp

theorem parseDigitsAux_natDigits (n : Nat) :
    ∀ acc : Nat,
      parseDigitsAux (natDigits n) acc =
        some (acc * 10 ^ (natDigits n).length + n) := by
  induction n using Nat.strong_induction_on with
  | _ n ih =>
    intro acc
    rw [natDigits]
    split
    · next h =>
      simp [parseDigitsAux, charDigit_digitChar h]
    · next h =>
      have hdiv : n / 10 < n := Nat.div_lt_self (by omega) (by omega)
      rw [parseDigitsAux_append, ih (n / 10) hdiv acc]
      simp only [Option.some_bind, parseDigitsAux,
        charDigit_digitChar (Nat.mod_lt n (by omega)), List.length_append,
        List.length_cons, List.length_nil, Nat.zero_add]
      congr 1
      rw [pow_succ]
      have key : n / 10 * 10 + n % 10 = n := by omega
      rw [Nat.add_mul, Nat.add_assoc, key, Nat.mul_assoc]

theorem parseDigits_natDigits (n : Nat) :
    parseDigits (natDigits n) = some n := by
  rw [parseDigits, if_neg (natDigits_ne_nil n), parseDigitsAux_natDigits]
  simp

theorem natDigits_head_digit (n : Nat) :
    ∃ d rest, d < 10 ∧ natDigits n = digitChar d :: rest := by
  induction n using Nat.strong_induction_on with
  | _ n ih =>
    rw [natDigits]
    split
    · next h => exact ⟨n, [], h, rfl⟩
    · next h =>
      have hdiv : n / 10 < n := Nat.div_lt_self (by omega) (by omega)
      obtain ⟨d, rest, hd, heq⟩ := ih (n / 10) hdiv
      exact ⟨d, rest ++ [digitChar (n % 10)], hd, by rw [heq]; rfl⟩

/-- Round trip at the heart of the codec claims: parsing the decimal string
of an integer in the 64-bit signed range (the range of every value a Go int
field can hold) with the Atoi model returns exactly that integer. -/
theorem atoi_intToString {n : Int} (hlo : -(2 ^ 63) ≤ n) (hhi : n < 2 ^ 63) :
    atoi (intToString n) = some n := by
  have hdata : (intToString n).data = intToChars n := rfl
  rw [atoi, hdata, intToChars]
  split
  · next hneg =>
    have hb : atoiChars ('-' :: natDigits (-n).toNat) =
        (parseDigits (natDigits (-n).toNat)).bind
          (fun d : Nat => if d ≤ 2 ^ 63 then some (-(d : Int)) else none) := by
      rw [atoiChars]
      rw [if_neg (by decide), if_pos rfl]
    rw [hb, parseDigits_natDigits, Option.some_bind]
    have h2 : ((-n).toNat : Int) = -n := Int.toNat_of_nonneg (by omega)
    rw [if_pos (by omega : (-n).toNat ≤ 2 ^ 63)]
    congr 1
    omega
  · next hpos =>
    obtain ⟨d, rest, hd, heq⟩ := natDigits_head_digit n.toNat
    rw [heq, atoiChars]
    rw [if_neg (digitChar_ne_plus hd), if_neg (digitChar_ne_minus hd)]
    rw [← heq, parseDigits_natDigits, Option.some_bind]
    rw [if_pos (by omega : n.toNat < 2 ^ 63)]
    congr 1
    omega

theorem intToString_ne_empty (n : Int) : intToString n ≠ "" := by
  intro h
  have hc : intToChars n = ([] : List Char) := congrArg String.data h
  rw [intToChars] at hc
  split at hc
  · simp at hc
  · exact natDigits_ne_nil _ hc

theorem wireNum_intToString {n : Int} (hlo : -(2 ^ 63) ≤ n)
    (hhi : n < 2 ^ 63) : wireNum (intToString n) = some n := by
  rw [wireNum, if_neg (intToString_ne_empty n), atoi_intToString hlo hhi]

theorem request_res_eq (c : Client) (m : String) (p : Option JSON)
    (code : Nat) (status : String) (body : Option ResponseEnv) :
    (c.request m p (.response code status body)).2.2
      = if code ≠ 200 then Except.error (.httpError code status)
        else
          match body with
          | none => Except.error .decodeError
          | some resp =>
            match resp.error with
            | some e => Except.error (.apiError m e)
            | none => Except.ok resp.result := rfl

theorem requestIDs_eq (c : Client) (m : String) (p : Option JSON)
    (o : HTTPOutcome) (n : Nat) :
    requestIDs c m p o n
      = (List.range n).map (fun k : Nat => c.requestID + (k : Int) + 1) := by
  induction n generalizing c with
  | zero => rfl
  | succ n ih =>
    have hstep : requestIDs c m p o (n + 1)
        = (c.requestID + 1)
            :: requestIDs { c with requestID := c.requestID + 1 } m p o n := rfl
    rw [hstep, ih, List.range_succ_eq_map, List.map_cons, List.map_map]
    congr 1
    · simp
    · apply List.map_congr_left
      intro k _
      simp only [Function.comp]
      push_cast
      ring

theorem requestIDs_nodup (c : Client) (m : String) (p : Option JSON)
    (o : HTTPOutcome) (n : Nat) : (requestIDs c m p o n).Nodup := by
  rw [requestIDs_eq]
  refine List.Nodup.map ?_ (List.nodup_range n)
  intro a b hab
  simp only at hab
  omega

/-- C5: across sequential Request calls from a freshly constructed client
the identifiers placed in the outgoing envelopes are exactly 1, 2, 3, ...
(the k-th call gets k), and from any client state the identifiers of any
number of calls are pairwise distinct. The counter increment in the source
is a single atomic operation, so an interleaving of concurrent calls
serializes the increments and this pairwise distinctness is exactly the
no-duplicate-id guarantee under concurrency. -/
theorem c5_request_id_sequence (url token m : String) (p : Option JSON)
    (o : HTTPOutcome) (n : Nat) (c : Client) :
    requestIDs (newClient url token) m p o n
        = (List.range n).map (fun k : Nat => (k : Int) + 1)
      ∧ (requestIDs c m p o n).Nodup := by
  constructor
  · rw [requestIDs_eq]
    simp [newClient]
  · exact requestIDs_nodup c m p o n

/-- C6: the no-auth allow-list contains exactly apiinfo.version; an outgoing
envelope for an allow-listed method carries no auth token, and for every
other method it carries exactly the token the client was constructed with. -/
theorem c6_auth_injection (c : Client) (m : String) (p : Option JSON)
    (o : HTTPOutcome) :
    (noAuthMethods m = true ↔ m = "apiinfo.version")
      ∧ (noAuthMethods m = true → ((c.request m p o).2.1).auth = "")
      ∧ (noAuthMethods m = false → ((c.request m p o).2.1).auth = c.token) := by
  refine ⟨?_, ?_, ?_⟩
  · simp [noAuthMethods]
  · intro h
    show (if noAuthMethods m then "" else c.token) = ""
    simp [h]
  · intro h
    show (if noAuthMethods m then "" else c.token) = c.token
    simp [h]

/-- Witness for c6_auth_injection at the allow-listed method and at an
ordinary method. -/
theorem c6_auth_injection_witness :
    ((newClient "u" "tok").request "apiinfo.version" none
        (.netError "x")).2.1.auth = ""
      ∧ ((newClient "u" "tok").request "host.get" none
        (.netError "x")).2.1.auth = "tok" :=
  ⟨(c6_auth_injection (newClient "u" "tok") "apiinfo.version" none
      (.netError "x")).2.1 (by decide),
   (c6_auth_injection (newClient "u" "tok") "host.get" none
      (.netError "x")).2.2 (by decide)⟩

/-- C1 evidence: the Request of client.go accepts a response envelope whose
echoed identifier 999 differs from the assigned identifier 1 and returns the
result payload with no error, the exact situation the repository test
TestRequest_ResponseIDMismatch requires to fail with a response id mismatch
error. -/
theorem c1_id_mismatch_accepted :
    ((newClient "http://z" "tok").request "test" none
        (.response 200 "200 OK"
          (some { jsonrpc := "2.0", result := some (.str "ok"),
                  error := none, id := 999 }))).2.1.id = 1
      ∧ ((newClient "http://z" "tok").request "test" none
        (.response 200 "200 OK"
          (some { jsonrpc := "2.0", result := some (.str "ok"),
                  error := none, id := 999 }))).2.2
        = .ok (some (.str "ok")) :=
  ⟨rfl, rfl⟩

/-- C2 counterexample: HTTP status 201 is a 2xx success status, yet the
Request of client.go fails it with an HTTPError, because the source rejects
every status other than exactly 200. -/
theorem c2_non2xx_counterexample :
    200 ≤ 201 ∧ 201 < 300
      ∧ ((newClient "u" "t").request "host.get" none
          (.response 201 "201 Created" none)).2.2
        = .error (.httpError 201 "201 Created") :=
  ⟨by omega, by omega, rfl⟩

/-- C2 amended: a Request call that receives an HTTP response fails with an
HTTPError carrying the status code and status line exactly when the status
is not 200 OK; in that case the body is never examined, so no JSON decoding
is attempted for any body, and in particular a 500 response with an
undecodable body yields an HTTPError with status code 500. -/
theorem c2_http_error_on_non200 (c : Client) (m : String) (p : Option JSON)
    (code : Nat) (status : String) (body : Option ResponseEnv) :
    (isHTTPError (c.request m p (.response code status body)).2.2 = true
        ↔ code ≠ 200)
      ∧ (code ≠ 200 →
          (c.request m p (.response code status body)).2.2
            = .error (.httpError code status)) := by
  by_cases hc : code = 200
  · subst hc
    have h2 : ((c.request m p (.response 200 status body)).2.2)
        = match body with
          | none => Except.error .decodeError
          | some resp =>
            match resp.error with
            | some e => Except.error (.apiError m e)
            | none => Except.ok resp.result := by
      rw [request_res_eq]
      simp
    refine ⟨?_, fun h => absurd rfl h⟩
    rw [h2]
    constructor
    · intro habs
      exfalso
      cases body with
      | none => simp [isHTTPError] at habs
      | some resp =>
        cases hre : resp.error with
        | none => simp [isHTTPError, hre] at habs
        | some e => simp [isHTTPError, hre] at habs
    · intro h
      exact absurd rfl h
  · have h2 : ((c.request m p (.response code status body)).2.2)
        = Except.error (.httpError code status) := by
      rw [request_res_eq, if_pos hc]
    exact ⟨by rw [h2]; simp [isHTTPError, hc], fun _ => h2⟩

/-- Witness for c2_http_error_on_non200: an HTTP 500 response with a body
that does not decode yields the HTTPError carrying status code 500. -/
theorem c2_http_error_on_non200_witness :
    ((newClient "u" "t").request "apiinfo.version" none
        (.response 500 "500 Internal Server Error" none)).2.2
      = .error (.httpError 500 "500 Internal Server Error") :=
  (c2_http_error_on_non200 (newClient "u" "t") "apiinfo.version" none
    500 "500 Internal Server Error" none).2 (by omega)

/-- C3 counterexample: for a host whose every optional field is unset and
whose status is the zero value, CreateHost still emits the status key with
the zero value, and also the host key with the empty string; so CreateHost
does not build its parameter object only from populated fields, and it does
not differ from UpdateHost in always including the status field. -/
theorem c3_counterexample :
    ("status", JSON.int 0) ∈ createHostParams
        { hostid := "", host := "", name := "", status := 0, groups := none,
          interfaces := none, tags := none, templates := none,
          parentTemplates := none }
      ∧ ("host", JSON.str "") ∈ createHostParams
        { hostid := "", host := "", name := "", status := 0, groups := none,
          interfaces := none, tags := none, templates := none,
          parentTemplates := none } := by
  constructor <;> simp [createHostParams, optLen]

/-- C3 amended: CreateHost omits the visible-name parameter when the name is
empty and includes it when set, and omits each slice-backed optional
parameter when the slice is empty; but the status field is always included
by CreateHost just as by UpdateHost, even at the zero value. -/
theorem c3_create_omits_empty_optional (h : Host) :
    (h.name = "" → "name" ∉ (createHostParams h).map Prod.fst)
      ∧ (h.name ≠ "" → ("name", JSON.str h.name) ∈ createHostParams h)
      ∧ (optLen h.groups = 0 → "groups" ∉ (createHostParams h).map Prod.fst)
      ∧ (optLen h.interfaces = 0 →
          "interfaces" ∉ (createHostParams h).map Prod.fst)
      ∧ (optLen h.templates = 0 →
          "templates" ∉ (createHostParams h).map Prod.fst)
      ∧ (optLen h.tags = 0 → "tags" ∉ (createHostParams h).map Prod.fst)
      ∧ ("status", JSON.int h.status) ∈ createHostParams h
      ∧ ("status", JSON.int h.status) ∈ updateHostParams h := by
  refine ⟨?_, ?_, ?_, ?_, ?_, ?_, ?_, ?_⟩
  · intro hx
    unfold createHostParams
    split_ifs <;> simp_all
  · intro hx
    unfold createHostParams
    split_ifs <;> simp_all
  · intro hx
    unfold createHostParams
    split_ifs <;> simp_all
  · intro hx
    unfold createHostParams
    split_ifs <;> simp_all
  · intro hx
    unfold createHostParams
    split_ifs <;> simp_all
  · intro hx
    unfold createHostParams
    split_ifs <;> simp_all
  · unfold createHostParams
    split_ifs <;> simp_all
  · unfold updateHostParams
    cases h.tags <;> split_ifs <;> simp_all

/-- Witness for c3_create_omits_empty_optional: at a host with every
optional field unset, the name, groups, interfaces, templates and tags
parameters are all omitted while status is present; at a host with a set
name, the name parameter is present. -/
theorem c3_create_omits_empty_optional_witness :
    ("name" ∉ (createHostParams
        { hostid := "", host := "h1", name := "", status := 0,
          groups := none, interfaces := none, tags := none,
          templates := none, parentTemplates := none }).map Prod.fst)
      ∧ ("groups" ∉ (createHostParams
        { hostid := "", host := "h1", name := "", status := 0,
          groups := none, interfaces := none, tags := none,
          templates := none, parentTemplates := none }).map Prod.fst)
      ∧ ("name", JSON.str "visible") ∈ createHostParams
        { hostid := "", host := "h1", name := "visible", status := 0,
          groups := none, interfaces := none, tags := none,
          templates := none, parentTemplates := none } :=
  ⟨(c3_create_omits_empty_optional
      { hostid := "", host := "h1", name := "", status := 0, groups := none,
        interfaces := none, tags := none, templates := none,
        parentTemplates := none }).1 rfl,
   (c3_create_omits_empty_optional
      { hostid := "", host := "h1", name := "", status := 0, groups := none,
        interfaces := none, tags := none, templates := none,
        parentTemplates := none }).2.2.1 rfl,
   (c3_create_omits_empty_optional
      { hostid := "", host := "h1", name := "visible", status := 0,
        groups := none, interfaces := none, tags := none, templates := none,
        parentTemplates := none }).2.1 (by decide)⟩

theorem updateHostParams_key_iff (h : Host) :
    ("tags" ∈ (updateHostParams h).map Prod.fst ↔ h.tags.isSome)
      ∧ ("groups" ∈ (updateHostParams h).map Prod.fst ↔ 0 < optLen h.groups)
      ∧ ("interfaces" ∈ (updateHostParams h).map Prod.fst
          ↔ 0 < optLen h.interfaces)
      ∧ ("templates" ∈ (updateHostParams h).map Prod.fst
          ↔ 0 < optLen h.templates) := by
  unfold updateHostParams
  cases h.tags <;> split_ifs <;> simp_all

theorem updateTemplateParams_key_iff (t : Template) :
    ("tags" ∈ (updateTemplateParams t).map Prod.fst ↔ t.tags.isSome)
      ∧ ("groups" ∈ (updateTemplateParams t).map Prod.fst
          ↔ 0 < optLen t.groups) := by
  unfold updateTemplateParams
  cases t.tags <;> split_ifs <;> simp_all

/-- C10: in UpdateHost and UpdateTemplate the tags parameter is present
exactly when the Tags slice is not nil, an empty non-nil slice sending an
explicit empty tag list, while the groups, interfaces and templates
parameters are omitted exactly when their slices have length zero; in
CreateHost the tags parameter is present exactly when the slice is
non-empty; consequently a nil Tags slice and an empty non-nil Tags slice
produce different update payloads. -/
theorem c10_tags_nil_vs_empty (h : Host) (t : Template) :
    ("tags" ∈ (updateHostParams h).map Prod.fst ↔ h.tags.isSome)
      ∧ (h.tags = some [] → ("tags", JSON.arr []) ∈ updateHostParams h)
      ∧ ("groups" ∈ (updateHostParams h).map Prod.fst ↔ 0 < optLen h.groups)
      ∧ ("interfaces" ∈ (updateHostParams h).map Prod.fst
          ↔ 0 < optLen h.interfaces)
      ∧ ("templates" ∈ (updateHostParams h).map Prod.fst
          ↔ 0 < optLen h.templates)
      ∧ ("tags" ∈ (updateTemplateParams t).map Prod.fst ↔ t.tags.isSome)
      ∧ (t.tags = some [] → ("tags", JSON.arr []) ∈ updateTemplateParams t)
      ∧ ("groups" ∈ (updateTemplateParams t).map Prod.fst
          ↔ 0 < optLen t.groups)
      ∧ ("tags" ∈ (createHostParams h).map Prod.fst ↔ 0 < optLen h.tags)
      ∧ updateHostParams { h with tags := none }
          ≠ updateHostParams { h with tags := some [] } := by
  refine ⟨(updateHostParams_key_iff h).1, ?_,
    (updateHostParams_key_iff h).2.1, (updateHostParams_key_iff h).2.2.1,
    (updateHostParams_key_iff h).2.2.2, (updateTemplateParams_key_iff t).1,
    ?_, (updateTemplateParams_key_iff t).2, ?_, ?_⟩
  · intro hx
    unfold updateHostParams
    rw [hx]
    split_ifs <;> simp [hostTagsJSON]
  · intro hx
    unfold updateTemplateParams
    rw [hx]
    split_ifs <;> simp [templateTagsJSON]
  · unfold createHostParams
    split_ifs <;> simp_all
  · intro heq
    have h1 := (updateHostParams_key_iff { h with tags := some [] }).1
    have h2 := (updateHostParams_key_iff { h with tags := none }).1
    rw [heq] at h2
    exact absurd (h2.mp (h1.mpr (by rfl))) (by simp)

/-- Witness for c10_tags_nil_vs_empty: update payloads for a host and a
template with an empty non-nil Tags slice carry an explicit empty tag list. -/
theorem c10_tags_nil_vs_empty_witness :
    ("tags", JSON.arr []) ∈ updateHostParams
        { hostid := "1", host := "", name := "", status := 0, groups := none,
          interfaces := none, tags := some [], templates := none,
          parentTemplates := none }
      ∧ ("tags", JSON.arr []) ∈ updateTemplateParams
        { templateid := "2", host := "", name := "", description := "",
          uuid := "", groups := none, tags := some [] } :=
  ⟨(c10_tags_nil_vs_empty
      { hostid := "1", host := "", name := "", status := 0, groups := none,
        interfaces := none, tags := some [], templates := none,
        parentTemplates := none }
      { templateid := "2", host := "", name := "", description := "",
        uuid := "", groups := none, tags := some [] }).2.1 rfl,
   (c10_tags_nil_vs_empty
      { hostid := "1", host := "", name := "", status := 0, groups := none,
        interfaces := none, tags := some [], templates := none,
        parentTemplates := none }
      { templateid := "2", host := "", name := "", description := "",
        uuid := "", groups := none, tags := some [] }).2.2.2.2.2.2.1 rfl⟩

/-- C7: for every entity kind, the Create, Update and Delete operations
treat a successfully returned result whose decoded affected-id list is empty
as a contract violation and fail with the source message, never succeeding;
the same call with exactly one id present succeeds, and Create returns
exactly that first id. -/
theorem c7_mutating_empty_ids (id : String) :
    createHostResult (.obj [("hostids", .arr [])])
        = .error "host.create returned no host IDs"
      ∧ createHostResult (.obj [("hostids", .arr [.str id])]) = .ok id
      ∧ updateHostResult (.obj [("hostids", .arr [])])
        = .error "host.update returned no host IDs"
      ∧ updateHostResult (.obj [("hostids", .arr [.str id])]) = .ok ()
      ∧ deleteHostResult (.obj [("hostids", .arr [])])
        = .error "host.delete returned no host IDs"
      ∧ deleteHostResult (.obj [("hostids", .arr [.str id])]) = .ok ()
      ∧ createHostGroupResult (.obj [("groupids", .arr [])])
        = .error "hostgroup.create returned no group IDs"
      ∧ createHostGroupResult (.obj [("groupids", .arr [.str id])]) = .ok id
      ∧ updateHostGroupResult (.obj [("groupids", .arr [])])
        = .error "hostgroup.update returned no group IDs"
      ∧ updateHostGroupResult (.obj [("groupids", .arr [.str id])]) = .ok ()
      ∧ deleteHostGroupResult (.obj [("groupids", .arr [])])
        = .error "hostgroup.delete returned no group IDs"
      ∧ deleteHostGroupResult (.obj [("groupids", .arr [.str id])]) = .ok ()
      ∧ createTemplateResult (.obj [("templateids", .arr [])])
        = .error "template.create returned no template IDs"
      ∧ createTemplateResult (.obj [("templateids", .arr [.str id])]) = .ok id
      ∧ updateTemplateResult (.obj [("templateids", .arr [])])
        = .error "template.update returned no template IDs"
      ∧ updateTemplateResult (.obj [("templateids", .arr [.str id])]) = .ok ()
      ∧ deleteTemplateResult (.obj [("templateids", .arr [])])
        = .error "template.delete returned no template IDs"
      ∧ deleteTemplateResult (.obj [("templateids", .arr [.str id])]) = .ok ()
      ∧ createTemplateGroupResult (.obj [("groupids", .arr [])])
        = .error "templategroup.create returned no group IDs"
      ∧ createTemplateGroupResult (.obj [("groupids", .arr [.str id])])
        = .ok id
      ∧ updateTemplateGroupResult (.obj [("groupids", .arr [])])
        = .error "templategroup.update returned no group IDs"
      ∧ updateTemplateGroupResult (.obj [("groupids", .arr [.str id])])
        = .ok ()
      ∧ deleteTemplateGroupResult (.obj [("groupids", .arr [])])
        = .error "templategroup.delete returned no group IDs"
      ∧ deleteTemplateGroupResult (.obj [("groupids", .arr [.str id])])
        = .ok () :=
  ⟨rfl, rfl, rfl, rfl, rfl, rfl, rfl, rfl, rfl, rfl, rfl, rfl,
   rfl, rfl, rfl, rfl, rfl, rfl, rfl, rfl, rfl, rfl, rfl, rfl⟩

/-- C8: for every entity kind, the Get and GetByName result handling turns a
successfully returned empty array into nil with no error, and whenever the
array decodes to a non-empty entity list it returns the first element. -/
theorem c8_get_empty_is_nil (rawH rawHG rawT rawTG : JSON)
    (eh : Host) (ehs : List Host) (eg : HostGroup) (egs : List HostGroup)
    (et : Template) (ets : List Template) (etg : TemplateGroup)
    (etgs : List TemplateGroup) :
    getHostResult (.arr []) = .ok none
      ∧ getHostGroupResult (.arr []) = .ok none
      ∧ getTemplateResult (.arr []) = .ok none
      ∧ getTemplateGroupResult (.arr []) = .ok none
      ∧ (decodeEntityList decodeHost rawH = .ok (eh :: ehs) →
          getHostResult rawH = .ok (some eh))
      ∧ (decodeEntityList decodeHostGroup rawHG = .ok (eg :: egs) →
          getHostGroupResult rawHG = .ok (some eg))
      ∧ (decodeEntityList decodeTemplate rawT = .ok (et :: ets) →
          getTemplateResult rawT = .ok (some et))
      ∧ (decodeEntityList decodeTemplateGroup rawTG = .ok (etg :: etgs) →
          getTemplateGroupResult rawTG = .ok (some etg)) := by
  refine ⟨rfl, rfl, rfl, rfl, ?_, ?_, ?_, ?_⟩
  · intro hd
    unfold getHostResult
    rw [hd]
  · intro hd
    unfold getHostGroupResult
    rw [hd]
  · intro hd
    unfold getTemplateResult
    rw [hd]
  · intro hd
    unfold getTemplateGroupResult
    rw [hd]

/-- Witness for c8_get_empty_is_nil: singleton result arrays whose one
element decodes, for each of the four entity kinds. -/
theorem c8_get_empty_is_nil_witness :
    getHostResult (.arr [.obj [("hostid", .str "10084")]])
        = .ok (some { hostid := "10084", host := "", name := "", status := 0,
                      groups := none, interfaces := none, tags := none,
                      templates := none, parentTemplates := none })
      ∧ getHostGroupResult (.arr [.obj [("groupid", .str "2")]])
        = .ok (some { groupid := "2", name := "", uuid := "" })
      ∧ getTemplateResult (.arr [.obj [("templateid", .str "7")]])
        = .ok (some { templateid := "7", host := "", name := "",
                      description := "", uuid := "", groups := none,
                      tags := none })
      ∧ getTemplateGroupResult (.arr [.obj [("groupid", .str "5")]])
        = .ok (some { groupid := "5", name := "", uuid := "" }) :=
  ⟨(c8_get_empty_is_nil (.arr [.obj [("hostid", .str "10084")]]) .null .null
      .null
      { hostid := "10084", host := "", name := "", status := 0,
        groups := none, interfaces := none, tags := none, templates := none,
        parentTemplates := none } []
      { groupid := "", name := "", uuid := "" } []
      { templateid := "", host := "", name := "", description := "",
        uuid := "", groups := none, tags := none } []
      { groupid := "", name := "", uuid := "" } []).2.2.2.2.1 rfl,
   (c8_get_empty_is_nil .null (.arr [.obj [("groupid", .str "2")]]) .null
      .null
      { hostid := "", host := "", name := "", status := 0, groups := none,
        interfaces := none, tags := none, templates := none,
        parentTemplates := none } []
      { groupid := "2", name := "", uuid := "" } []
      { templateid := "", host := "", name := "", description := "",
        uuid := "", groups := none, tags := none } []
      { groupid := "", name := "", uuid := "" } []).2.2.2.2.2.1 rfl,
   (c8_get_empty_is_nil .null .null (.arr [.obj [("templateid", .str "7")]])
      .null
      { hostid := "", host := "", name := "", status := 0, groups := none,
        interfaces := none, tags := none, templates := none,
        parentTemplates := none } []
      { groupid := "", name := "", uuid := "" } []
      { templateid := "7", host := "", name := "", description := "",
        uuid := "", groups := none, tags := none } []
      { groupid := "", name := "", uuid := "" } []).2.2.2.2.2.2.1 rfl,
   (c8_get_empty_is_nil .null .null .null
      (.arr [.obj [("groupid", .str "5")]])
      { hostid := "", host := "", name := "", status := 0, groups := none,
        interfaces := none, tags := none, templates := none,
        parentTemplates := none } []
      { groupid := "", name := "", uuid := "" } []
      { templateid := "", host := "", name := "", description := "",
        uuid := "", groups := none, tags := none } []
      { groupid := "5", name := "", uuid := "" } []).2.2.2.2.2.2.2 rfl⟩

theorem wireNum_of_atoi {s : String} {v : Int} (h : atoi s = some v) :
    wireNum s = some v := by
  rw [wireNum]
  split
  · next he =>
    rw [he, show atoi "" = none from rfl] at h
    exact Option.noConfusion h
  · exact h

theorem wireNum_none {s : String} (h1 : s ≠ "") (h2 : atoi s = none) :
    wireNum s = none := by
  rw [wireNum, if_neg h1]
  exact h2

/-- C9: when decoding the wire shapes of Host and HostInterface, an empty
numeric wire string leaves the domain field at its zero value and decoding
succeeds; a non-empty wire string that parses as an integer lands exactly
that integer in the domain field; and a non-empty wire string that does not
parse fails with the descriptive source error naming the offending field and
its raw value. Failing to parse includes the strconv range failure: the
closing conjuncts pin the Atoi model at the 64-bit signed boundary, one
beyond the largest and the smallest int values parsing to none, so a
beyond-range wire string takes the same descriptive error path. -/
theorem c9_wire_numeric_fields (hw : HostWire) (iw : HostInterfaceWire)
    (n t m u : Int) :
    (hw.status = "" →
        hostFromWire hw
          = .ok { hostid := hw.hostid, host := hw.host, name := hw.name,
                  status := 0, groups := hw.groups,
                  interfaces := hw.interfaces, tags := hw.tags,
                  templates := hw.templates,
                  parentTemplates := hw.parentTemplates })
      ∧ (atoi hw.status = some n →
          hostFromWire hw
            = .ok { hostid := hw.hostid, host := hw.host, name := hw.name,
                    status := n, groups := hw.groups,
                    interfaces := hw.interfaces, tags := hw.tags,
                    templates := hw.templates,
                    parentTemplates := hw.parentTemplates })
      ∧ (hw.status ≠ "" → atoi hw.status = none →
          hostFromWire hw = .error ("invalid status value: " ++ hw.status))
      ∧ (iw.type = "" → iw.main = "" → iw.useip = "" →
          hostInterfaceFromWire iw
            = .ok { interfaceid := iw.interfaceid, type := 0, main := 0,
                    useip := 0, ip := iw.ip, dns := iw.dns, port := iw.port })
      ∧ (atoi iw.type = some t → atoi iw.main = some m →
          atoi iw.useip = some u →
          hostInterfaceFromWire iw
            = .ok { interfaceid := iw.interfaceid, type := t, main := m,
                    useip := u, ip := iw.ip, dns := iw.dns, port := iw.port })
      ∧ (iw.type ≠ "" → atoi iw.type = none →
          hostInterfaceFromWire iw
            = .error ("invalid interface type value: " ++ iw.type))
      ∧ ((wireNum iw.type).isSome → iw.main ≠ "" → atoi iw.main = none →
          hostInterfaceFromWire iw
            = .error ("invalid interface main value: " ++ iw.main))
      ∧ ((wireNum iw.type).isSome → (wireNum iw.main).isSome →
          iw.useip ≠ "" → atoi iw.useip = none →
          hostInterfaceFromWire iw
            = .error ("invalid interface useip value: " ++ iw.useip))
      ∧ atoi "9223372036854775807" = some 9223372036854775807
      ∧ atoi "9223372036854775808" = none
      ∧ atoi "-9223372036854775808" = some (-9223372036854775808)
      ∧ atoi "-9223372036854775809" = none
      ∧ hostFromWire
          { hostid := "", host := "", name := "",
            status := "9223372036854775808", groups := none,
            interfaces := none, tags := none, templates := none,
            parentTemplates := none }
          = .error ("invalid status value: " ++ "9223372036854775808") := by
  refine ⟨?_, ?_, ?_, ?_, ?_, ?_, ?_, ?_, by decide, by decide, by decide,
    by decide, by rfl⟩
  · intro h
    unfold hostFromWire wireNum
    rw [h]
    rfl
  · intro h
    unfold hostFromWire
    rw [wireNum_of_atoi h]
  · intro h1 h2
    unfold hostFromWire
    rw [wireNum_none h1 h2]
  · intro h1 h2 h3
    unfold hostInterfaceFromWire wireNum
    rw [h1, h2, h3]
    rfl
  · intro h1 h2 h3
    unfold hostInterfaceFromWire
    rw [wireNum_of_atoi h1, wireNum_of_atoi h2, wireNum_of_atoi h3]
  · intro h1 h2
    unfold hostInterfaceFromWire
    rw [wireNum_none h1 h2]
  · intro hts h1 h2
    obtain ⟨tv, htv⟩ := Option.isSome_iff_exists.mp hts
    unfold hostInterfaceFromWire
    rw [htv, wireNum_none h1 h2]
  · intro hts hms h1 h2
    obtain ⟨tv, htv⟩ := Option.isSome_iff_exists.mp hts
    obtain ⟨mv, hmv⟩ := Option.isSome_iff_exists.mp hms
    unfold hostInterfaceFromWire
    rw [htv, hmv, wireNum_none h1 h2]

/-- Witness for c9_wire_numeric_fields at concrete wire structs covering the
empty, parsable and unparsable cases of every numeric field. -/
theorem c9_wire_numeric_fields_witness :
    hostFromWire
        { hostid := "a", host := "b", name := "c", status := "",
          groups := none, interfaces := none, tags := none,
          templates := none, parentTemplates := none }
      = .ok { hostid := "a", host := "b", name := "c", status := 0,
              groups := none, interfaces := none, tags := none,
              templates := none, parentTemplates := none }
    ∧ hostFromWire
        { hostid := "a", host := "b", name := "c", status := "7",
          groups := none, interfaces := none, tags := none,
          templates := none, parentTemplates := none }
      = .ok { hostid := "a", host := "b", name := "c", status := 7,
              groups := none, interfaces := none, tags := none,
              templates := none, parentTemplates := none }
    ∧ hostFromWire
        { hostid := "a", host := "b", name := "c", status := "abc",
          groups := none, interfaces := none, tags := none,
          templates := none, parentTemplates := none }
      = .error ("invalid status value: " ++ "abc")
    ∧ hostInterfaceFromWire
        { interfaceid := "", type := "", main := "", useip := "",
          ip := "", dns := "", port := "" }
      = .ok { interfaceid := "", type := 0, main := 0, useip := 0,
              ip := "", dns := "", port := "" }
    ∧ hostInterfaceFromWire
        { interfaceid := "9", type := "1", main := "0", useip := "1",
          ip := "192.168.1.100", dns := "", port := "10050" }
      = .ok { interfaceid := "9", type := 1, main := 0, useip := 1,
              ip := "192.168.1.100", dns := "", port := "10050" }
    ∧ hostInterfaceFromWire
        { interfaceid := "", type := "x", main := "", useip := "",
          ip := "", dns := "", port := "" }
      = .error ("invalid interface type value: " ++ "x")
    ∧ hostInterfaceFromWire
        { interfaceid := "", type := "1", main := "y", useip := "",
          ip := "", dns := "", port := "" }
      = .error ("invalid interface main value: " ++ "y")
    ∧ hostInterfaceFromWire
        { interfaceid := "", type := "1", main := "0", useip := "z",
          ip := "", dns := "", port := "" }
      = .error ("invalid interface useip value: " ++ "z") :=
  ⟨(c9_wire_numeric_fields
      { hostid := "a", host := "b", name := "c", status := "",
        groups := none, interfaces := none, tags := none, templates := none,
        parentTemplates := none }
      { interfaceid := "", type := "", main := "", useip := "", ip := "",
        dns := "", port := "" } 0 0 0 0).1 rfl,
   (c9_wire_numeric_fields
      { hostid := "a", host := "b", name := "c", status := "7",
        groups := none, interfaces := none, tags := none, templates := none,
        parentTemplates := none }
      { interfaceid := "", type := "", main := "", useip := "", ip := "",
        dns := "", port := "" } 7 0 0 0).2.1 (by decide),
   (c9_wire_numeric_fields
      { hostid := "a", host := "b", name := "c", status := "abc",
        groups := none, interfaces := none, tags := none, templates := none,
        parentTemplates := none }
      { interfaceid := "", type := "", main := "", useip := "", ip := "",
        dns := "", port := "" } 0 0 0 0).2.2.1 (by decide) (by decide),
   (c9_wire_numeric_fields
      { hostid := "", host := "", name := "", status := "", groups := none,
        interfaces := none, tags := none, templates := none,
        parentTemplates := none }
      { interfaceid := "", type := "", main := "", useip := "", ip := "",
        dns := "", port := "" } 0 0 0 0).2.2.2.1 rfl rfl rfl,
   (c9_wire_numeric_fields
      { hostid := "", host := "", name := "", status := "", groups := none,
        interfaces := none, tags := none, templates := none,
        parentTemplates := none }
      { interfaceid := "9", type := "1", main := "0", useip := "1",
        ip := "192.168.1.100", dns := "", port := "10050" }
      0 1 0 1).2.2.2.2.1 (by decide) (by decide) (by decide),
   (c9_wire_numeric_fields
      { hostid := "", host := "", name := "", status := "", groups := none,
        interfaces := none, tags := none, templates := none,
        parentTemplates := none }
      { interfaceid := "", type := "x", main := "", useip := "", ip := "",
        dns := "", port := "" } 0 0 0 0).2.2.2.2.2.1 (by decide) (by decide),
   (c9_wire_numeric_fields
      { hostid := "", host := "", name := "", status := "", groups := none,
        interfaces := none, tags := none, templates := none,
        parentTemplates := none }
      { interfaceid := "", type := "1", main := "y", useip := "", ip := "",
        dns := "", port := "" } 0 0 0 0).2.2.2.2.2.2.1
        (by decide) (by decide) (by decide),
   (c9_wire_numeric_fields
      { hostid := "", host := "", name := "", status := "", groups := none,
        interfaces := none, tags := none, templates := none,
        parentTemplates := none }
      { interfaceid := "", type := "1", main := "0", useip := "z", ip := "",
        dns := "", port := "" } 0 0 0 0).2.2.2.2.2.2.2.1
        (by decide) (by decide) (by decide) (by decide)⟩

/-- C4: for every host interface whose numeric fields hold values of the
source field type, the Go int (64-bit signed, so between the negated and the
non-negated 63rd power of two), the MarshalJSON emits each numeric field as
a true JSON integer literal, and decoding the string-ized server echo of the
encoded object through the UnmarshalJSON path yields the original struct
back, in particular each original integer field value. -/
theorem c4_interface_roundtrip (hi : HostInterface)
    (hty : -(2 ^ 63) ≤ hi.type ∧ hi.type < 2 ^ 63)
    (hmn : -(2 ^ 63) ≤ hi.main ∧ hi.main < 2 ^ 63)
    (hus : -(2 ^ 63) ≤ hi.useip ∧ hi.useip < 2 ^ 63) :
    ("type", JSON.int hi.type) ∈ objMembers (hostInterfaceMarshal hi)
      ∧ ("main", JSON.int hi.main) ∈ objMembers (hostInterfaceMarshal hi)
      ∧ ("useip", JSON.int hi.useip) ∈ objMembers (hostInterfaceMarshal hi)
      ∧ decodeHostInterface (stringizeTop (hostInterfaceMarshal hi))
          = .ok hi := by
  obtain ⟨iid, ty, mn, us, ipv, dnsv, portv⟩ := hi
  refine ⟨?_, ?_, ?_, ?_⟩
  · unfold hostInterfaceMarshal objMembers
    split_ifs <;> simp
  · unfold hostInterfaceMarshal objMembers
    split_ifs <;> simp
  · unfold hostInterfaceMarshal objMembers
    split_ifs <;> simp
  · by_cases hid : iid = ""
    · subst hid
      have hm : stringizeTop (hostInterfaceMarshal
            { interfaceid := "", type := ty, main := mn, useip := us,
              ip := ipv, dns := dnsv, port := portv })
          = .obj [("type", .str (intToString ty)),
                  ("main", .str (intToString mn)),
                  ("useip", .str (intToString us)),
                  ("ip", .str ipv), ("dns", .str dnsv),
                  ("port", .str portv)] := by
        simp [hostInterfaceMarshal, stringizeTop, stringizeVal]
      rw [hm]
      have hdec : decodeHostInterface
            (.obj [("type", .str (intToString ty)),
                   ("main", .str (intToString mn)),
                   ("useip", .str (intToString us)),
                   ("ip", .str ipv), ("dns", .str dnsv),
                   ("port", .str portv)])
          = hostInterfaceFromWire
              { interfaceid := "", type := intToString ty,
                main := intToString mn, useip := intToString us,
                ip := ipv, dns := dnsv, port := portv } := rfl
      rw [hdec]
      simp [hostInterfaceFromWire, wireNum_intToString hty.1 hty.2,
        wireNum_intToString hmn.1 hmn.2, wireNum_intToString hus.1 hus.2]
    · have hm : stringizeTop (hostInterfaceMarshal
            { interfaceid := iid, type := ty, main := mn, useip := us,
              ip := ipv, dns := dnsv, port := portv })
          = .obj [("type", .str (intToString ty)),
                  ("main", .str (intToString mn)),
                  ("useip", .str (intToString us)),
                  ("ip", .str ipv), ("dns", .str dnsv),
                  ("port", .str portv), ("interfaceid", .str iid)] := by
        simp [hostInterfaceMarshal, stringizeTop, stringizeVal, hid]
      rw [hm]
      have hdec : decodeHostInterface
            (.obj [("type", .str (intToString ty)),
                   ("main", .str (intToString mn)),
                   ("useip", .str (intToString us)),
                   ("ip", .str ipv), ("dns", .str dnsv),
                   ("port", .str portv), ("interfaceid", .str iid)])
          = hostInterfaceFromWire
              { interfaceid := iid, type := intToString ty,
                main := intToString mn, useip := intToString us,
                ip := ipv, dns := dnsv, port := portv } := rfl
      rw [hdec]
      simp [hostInterfaceFromWire, wireNum_intToString hty.1 hty.2,
        wireNum_intToString hmn.1 hmn.2, wireNum_intToString hus.1 hus.2]

/-- Witness for c4_interface_roundtrip at the interface of the spec host
scenario, whose numeric values are well inside the Go int range. -/
theorem c4_interface_roundtrip_witness :
    decodeHostInterface (stringizeTop (hostInterfaceMarshal
        { interfaceid := "", type := 1, main := 1, useip := 1,
          ip := "192.168.1.100", dns := "", port := "10050" }))
      = .ok { interfaceid := "", type := 1, main := 1, useip := 1,
              ip := "192.168.1.100", dns := "", port := "10050" } :=
  (c4_interface_roundtrip
    { interfaceid := "", type := 1, main := 1, useip := 1,
      ip := "192.168.1.100", dns := "", port := "10050" }
    ⟨by decide, by decide⟩ ⟨by decide, by decide⟩ ⟨by decide, by decide⟩
    ).2.2.2

end Zabbix
